import Mathlib

/-!
Verification of the ChatBot repository (React single-page chat UI).

The embedding models the two source files:
  - src/App.tsx: the Shell/Router (authentication flag) and the AuthForm
    credential check against two configured reference strings.
  - src/components/Chat.tsx: the chat session state and the handleSubmit
    event handler, embedded as a function from the pre-submit state and the
    outcomes of the two asynchronous suspension points (file read, inference
    call) to the ordered list of primitive effects the handler performs.

Every setMessages call in the source uses the functional updater
(prev) => [...prev, m]; such a call is modelled by the Event.appendMessage
effect, whose semantics appends one message at the end of the transcript.
-/

/-- Message role, from the Message interface in Chat.tsx. -/
inductive Role where
  | user
  | assistant
deriving DecidableEq, Repr

/-- A transcript entry: role, text content, optional image payload list
(Chat.tsx, interface Message). -/
structure Message where
  role : Role
  content : String
  images : Option (List String) := none
deriving DecidableEq, Repr

/-- A selected file as the handler sees it: its name and its declared media
type (the File object fields used by Chat.tsx). -/
structure JsFile where
  name : String
  type : String
deriving DecidableEq, Repr

/-- The component state of Chat (the four useState cells in Chat.tsx). -/
structure ChatState where
  messages : List Message
  input : String
  isLoading : Bool
  selectedFile : Option JsFile
deriving DecidableEq, Repr

/-- Outcome of one FileReader read: onload with the resulting string, or
onerror. -/
inductive ReadOutcome where
  | ok (data : String)
  | err
deriving DecidableEq, Repr

/-- A thrown JavaScript value as the catch block inspects it: whether it is
an Error instance, and its message. -/
structure JsError where
  isError : Bool
  message : String
deriving DecidableEq, Repr

/-- The message part of an ollama chat response. -/
structure OllamaMessage where
  content : String
deriving DecidableEq, Repr

/-- An ollama chat response; the message field may be absent (modelled by
none), matching the response.message check in Chat.tsx. -/
structure OllamaResponse where
  message : Option OllamaMessage
deriving DecidableEq, Repr

/-- Outcome of the awaited ollama.chat call: a response (possibly null,
modelled by none) or a thrown value. -/
inductive ChatOutcome where
  | ok (response : Option OllamaResponse)
  | thrown (e : JsError)
deriving DecidableEq, Repr

/-- The environment of one submission: what each asynchronous suspension
point resolves to. -/
structure SubmitEnv where
  readResult : ReadOutcome
  chatResult : ChatOutcome
deriving DecidableEq, Repr

/-- One message of the outgoing request body built in Chat.tsx lines
108-114. -/
structure ChatRequestMessage where
  role : Role
  content : String
  images : Option (List String)
deriving DecidableEq, Repr

/-- The outgoing request body of the ollama.chat call. -/
structure ChatRequest where
  model : String
  messages : List ChatRequestMessage
deriving DecidableEq, Repr

/-- Primitive effects of handleSubmit, in the order the source performs
them. awaitFileRead marks the asynchronous FileReader suspension point;
chatRequest marks the awaited ollama.chat call carrying the request body. -/
inductive Event where
  | awaitFileRead
  | appendMessage (m : Message)
  | setInput (s : String)
  | setSelectedFile (f : Option JsFile)
  | setLoading (b : Bool)
  | chatRequest (req : ChatRequest)
deriving DecidableEq, Repr

/-- Diagnostic text appended when the image read fails (Chat.tsx line 66). -/
def imageErrorText : String :=
  "Sorry, there was an error processing your image. Please try again."

/-- Diagnostic text appended when the text-file read fails (Chat.tsx line 91). -/
def fileErrorText : String :=
  "Sorry, there was an error processing your file. Please try again."

/-- Generic inference-failure text (Chat.tsx line 130). -/
def genericErrorText : String :=
  "Sorry, I encountered an error processing your request."

/-- Connectivity-failure text (Chat.tsx line 134). -/
def connectivityErrorText : String :=
  "Unable to connect to Ollama. Please make sure Ollama is running and try again."

/-- The statically configured model identifier (Chat.tsx line 107). -/
def modelName : String := "llama3.2-vision:11b"

/-- The delimited block appended to the visible text for a non-image file
(Chat.tsx line 84). -/
def hiddenFileBlock (content : String) : String :=
  "\n\n[Hidden File Content]:\n" ++ content

/-- Whether the first char list begins with the second (helper for the
JavaScript string operations below). -/
def leadsWith : List Char → List Char → Bool
  | _, [] => true
  | [], _ :: _ => false
  | c :: cs, p :: ps => c == p && leadsWith cs ps

/-- Whether pat occurs as a contiguous run inside the char list. -/
def hasSub (pat : List Char) : List Char → Bool
  | [] => pat.isEmpty
  | c :: cs => leadsWith (c :: cs) pat || hasSub pat cs

/-- Substring test, modelling the JavaScript String.includes used in the
catch block. -/
def containsStr (s pat : String) : Bool :=
  hasSub pat.data s.data

/-- Model of the JavaScript String.startsWith used on the file media type. -/
def jsStartsWith (s pat : String) : Bool :=
  leadsWith s.data pat.data

/-- Model of the JavaScript String.trim on the whitespace characters the
inputs at issue contain (space, tab, newline, carriage return). -/
def jsTrim (s : String) : String :=
  ⟨((s.data.dropWhile Char.isWhitespace).reverse.dropWhile
      Char.isWhitespace).reverse⟩

/-- Splitting a char list at every occurrence of the separator char,
modelling the JavaScript String.split with a one-char separator. -/
def splitChar (sep : Char) : List Char → List (List Char)
  | [] => [[]]
  | c :: cs =>
      let r := splitChar sep cs
      if c == sep then [] :: r
      else
        match r with
        | [] => [[c]]
        | g :: gs => (c :: g) :: gs

/-- Model of the JavaScript split on a comma, as used on the FileReader
data URL. -/
def jsSplitComma (s : String) : List String :=
  (splitChar ',' s.data).map fun cs => ⟨cs⟩

/-- Base64 extraction from the FileReader data URL: result.split(",")[1]
(Chat.tsx line 53). A missing index 1 (undefined in JavaScript) is modelled
by the empty string; both are falsy at the single place the value is tested
(the imageBase64 truthiness check when building the request). -/
def splitBase64 (dataUrl : String) : String :=
  (jsSplitComma dataUrl).getD 1 ""

/-- JavaScript truthiness of the optional imageBase64 string: undefined and
the empty string are falsy. -/
def strTruthy : Option String → Bool
  | some s => s ≠ ""
  | none => false

/-- The error classification of the catch block (Chat.tsx lines 128-136):
connectivity text when the thrown value is an Error whose message includes
Failed to fetch or NetworkError, generic text otherwise. -/
def classifyError (e : JsError) : String :=
  if e.isError && (containsStr e.message "Failed to fetch"
      || containsStr e.message "NetworkError")
  then connectivityErrorText
  else genericErrorText

/-- The request body built at Chat.tsx lines 106-115: one user message with
the current prompt content; the images field is present exactly when
imageBase64 is truthy. -/
def buildRequest (content : String) (imageBase64 : Option String) : ChatRequest :=
  { model := modelName
    messages := [ { role := Role.user
                    content := content
                    images := if strTruthy imageBase64
                              then some [imageBase64.getD ""]
                              else none } ] }

/-- Effects of the try/catch around the awaited chat call (Chat.tsx lines
117-144): a null response or a response without a message throws Invalid
response from Ollama, which the catch classifies; a thrown value is
classified; a well-formed response appends the assistant reply. -/
def tryChatEvents : ChatOutcome → List Event
  | ChatOutcome.ok none =>
      [Event.appendMessage ⟨Role.assistant,
        classifyError ⟨true, "Invalid response from Ollama"⟩, none⟩]
  | ChatOutcome.ok (some r) =>
      match r.message with
      | none =>
          [Event.appendMessage ⟨Role.assistant,
            classifyError ⟨true, "Invalid response from Ollama"⟩, none⟩]
      | some m =>
          [Event.appendMessage ⟨Role.assistant, m.content, none⟩]
  | ChatOutcome.thrown e =>
      [Event.appendMessage ⟨Role.assistant, classifyError e, none⟩]

/-- Effects of Chat.tsx lines 100-147 once the user message is final:
append the user message, clear the input, clear the attachment, set the
loading flag, issue the request, handle the outcome, clear the loading flag
in the finally block. -/
def sendPhase (userContent : String) (images : Option (List String))
    (imageBase64 : Option String) (co : ChatOutcome) : List Event :=
  [ Event.appendMessage ⟨Role.user, userContent, images⟩
  , Event.setInput ""
  , Event.setSelectedFile none
  , Event.setLoading true
  , Event.chatRequest (buildRequest userContent imageBase64) ]
  ++ tryChatEvents co
  ++ [Event.setLoading false]

/-- The handleSubmit handler of Chat.tsx (lines 33-148) as the ordered list
of effects it performs, given the pre-submit state and the outcomes of its
asynchronous suspension points. -/
def handleSubmit (st : ChatState) (env : SubmitEnv) : List Event :=
  if jsTrim st.input == "" && st.selectedFile.isNone then
    []
  else
    match st.selectedFile with
    | some f =>
        if jsStartsWith f.type "image/" then
          Event.awaitFileRead ::
            match env.readResult with
            | ReadOutcome.ok data =>
                let b := splitBase64 data
                sendPhase st.input (some [b]) (some b) env.chatResult
            | ReadOutcome.err =>
                [ Event.appendMessage ⟨Role.assistant, imageErrorText, none⟩
                , Event.setSelectedFile none ]
        else
          Event.awaitFileRead ::
            match env.readResult with
            | ReadOutcome.ok data =>
                sendPhase (st.input ++ hiddenFileBlock data) none none
                  env.chatResult
            | ReadOutcome.err =>
                [ Event.appendMessage ⟨Role.assistant, fileErrorText, none⟩
                , Event.setSelectedFile none ]
    | none => sendPhase st.input none none env.chatResult

/-- Semantics of one effect on the component state. -/
def applyEvent (st : ChatState) : Event → ChatState
  | Event.awaitFileRead => st
  | Event.appendMessage m => { st with messages := st.messages ++ [m] }
  | Event.setInput s => { st with input := s }
  | Event.setSelectedFile f => { st with selectedFile := f }
  | Event.setLoading b => { st with isLoading := b }
  | Event.chatRequest _ => st

/-- Semantics of an effect list. -/
def applyEvents (st : ChatState) (es : List Event) : ChatState :=
  es.foldl applyEvent st

/-- The component state after one whole submission. -/
def runSubmit (st : ChatState) (env : SubmitEnv) : ChatState :=
  applyEvents st (handleSubmit st env)

/-- The message an appendMessage effect carries. -/
def eventMessage : Event → Option Message
  | Event.appendMessage m => some m
  | _ => none

/-- The transcript entries a trace appends, in order. -/
def appendedMessages (es : List Event) : List Message :=
  es.filterMap eventMessage

/-- The request a chatRequest effect carries. -/
def eventRequest : Event → Option ChatRequest
  | Event.chatRequest r => some r
  | _ => none

/-- The inference requests a trace issues, in order. -/
def requests (es : List Event) : List ChatRequest :=
  es.filterMap eventRequest

/-- Whether the pending-response loading indicator entry is rendered in the
transcript view (Chat.tsx line 208: isLoading gates the spinner entry). -/
def loadingIndicatorShown (st : ChatState) : Bool := st.isLoading

/-- Whether the send button is disabled (Chat.tsx line 254: disabled is the
isLoading flag). -/
def sendButtonDisabled (st : ChatState) : Bool := st.isLoading

/-- The two configured reference strings read from the build-time
environment (App.tsx bundle, VITE_AUTH_USERNAME and VITE_AUTH_PASSWORD). -/
structure AuthConfig where
  username : String
  password : String
deriving DecidableEq, Repr

/-- The credential comparison of handleAuth in the AuthForm component:
both fields must equal the configured reference strings. -/
def credentialsValid (cfg : AuthConfig) (u p : String) : Bool :=
  u == cfg.username && p == cfg.password

/-- The initial state of a freshly mounted Chat component: the initial
values of its four useState cells. -/
def initialChatState : ChatState :=
  { messages := [], input := "", isLoading := false, selectedFile := none }

/-- The whole-app state: the isAuthenticated flag of App, plus the state of
the mounted Chat component (none while the chat view is unmounted). -/
structure AppState where
  isAuthenticated : Bool
  chat : Option ChatState
deriving DecidableEq, Repr

/-- Top-level user interactions: a login attempt with two strings, the
logout click, and a chat submission with its asynchronous outcomes. -/
inductive AppEvent where
  | login (u p : String)
  | logout
  | submit (env : SubmitEnv)
deriving DecidableEq, Repr

/-- One step of the whole system. A login attempt is only possible while
the gate view is mounted (not authenticated); on valid credentials the app
sets the flag and mounts a fresh Chat component. The logout click is only
available from the chat view and unmounts it, discarding its state. A
submission runs the handleSubmit handler of the mounted Chat component. -/
def appStep (cfg : AuthConfig) (s : AppState) : AppEvent → AppState
  | AppEvent.login u p =>
      if s.isAuthenticated then s
      else if credentialsValid cfg u p then
        { isAuthenticated := true, chat := some initialChatState }
      else s
  | AppEvent.logout =>
      if s.isAuthenticated then { isAuthenticated := false, chat := none }
      else s
  | AppEvent.submit env =>
      if s.isAuthenticated then
        match s.chat with
        | some cst => { s with chat := some (runSubmit cst env) }
        | none => s
      else s

/-- Whether an effect is the awaited inference call. -/
def isChatRequestEvent : Event → Bool
  | Event.chatRequest _ => true
  | _ => false

/-- Whether an effect is the awaited file read. -/
def isAwaitFileReadEvent : Event → Bool
  | Event.awaitFileRead => true
  | _ => false

/-- Whether an effect sets the loading flag to the given value. -/
def isSetLoadingEvent (b : Bool) : Event → Bool
  | Event.setLoading v => v == b
  | _ => false

/-- The value of the loading flag after a trace, starting from init. -/
def loadingState (init : Bool) (es : List Event) : Bool :=
  es.foldl (fun b e => match e with | Event.setLoading v => v | _ => b) init

/-- How many times a trace sets the loading flag to the given value. -/
def countSetLoading (b : Bool) (es : List Event) : Nat :=
  es.countP (isSetLoadingEvent b)

/-- The text of the single assistant entry the response phase appends:
the reply content on a well-formed response, the classified diagnostic
otherwise. -/
def replyText : ChatOutcome → String
  | ChatOutcome.ok none => classifyError ⟨true, "Invalid response from Ollama"⟩
  | ChatOutcome.ok (some r) =>
      match r.message with
      | none => classifyError ⟨true, "Invalid response from Ollama"⟩
      | some m => m.content
  | ChatOutcome.thrown e => classifyError e

/-- Which chat outcomes count as failures, and the diagnostic text the
handler surfaces for each: a null response or a response without a message
yields the generic text, a thrown value yields its classification. -/
def chatFailureText : ChatOutcome → Option String
  | ChatOutcome.ok none => some genericErrorText
  | ChatOutcome.ok (some r) =>
      match r.message with
      | none => some genericErrorText
      | some _ => none
  | ChatOutcome.thrown e => some (classifyError e)

/-- Whether a chat outcome is the connectivity failure the catch block
recognises: a thrown Error whose message includes Failed to fetch or
NetworkError. -/
def isConnectivityFailure : ChatOutcome → Bool
  | ChatOutcome.thrown e =>
      e.isError && (containsStr e.message "Failed to fetch"
        || containsStr e.message "NetworkError")
  | _ => false

/-! Structural lemmas about the trace semantics. -/

theorem applyEvents_cons (st : ChatState) (e : Event) (es : List Event) :
    applyEvents st (e :: es) = applyEvents (applyEvent st e) es := rfl

theorem applyEvents_nil (st : ChatState) : applyEvents st [] = st := rfl

theorem applyEvents_messages (es : List Event) (st : ChatState) :
    (applyEvents st es).messages = st.messages ++ appendedMessages es := by
  induction es generalizing st with
  | nil => simp [applyEvents, appendedMessages]
  | cons e es ih =>
      rw [applyEvents_cons, ih]
      cases e <;>
        simp [applyEvent, appendedMessages, eventMessage, List.filterMap_cons]

theorem tryChatEvents_eq (co : ChatOutcome) :
    tryChatEvents co
      = [Event.appendMessage ⟨Role.assistant, replyText co, none⟩] := by
  rcases co with r | e
  · rcases r with _ | r
    · rfl
    · rcases r with ⟨_ | m⟩ <;> rfl
  · rfl

theorem appendedMessages_sendPhase (c : String) (imgs : Option (List String))
    (b : Option String) (co : ChatOutcome) :
    appendedMessages (sendPhase c imgs b co)
      = [⟨Role.user, c, imgs⟩, ⟨Role.assistant, replyText co, none⟩] := by
  simp [sendPhase, tryChatEvents_eq, appendedMessages, eventMessage]

theorem requests_sendPhase (c : String) (imgs : Option (List String))
    (b : Option String) (co : ChatOutcome) :
    requests (sendPhase c imgs b co) = [buildRequest c b] := by
  simp [sendPhase, tryChatEvents_eq, requests, eventRequest]

theorem selectedFile_sendPhase (st : ChatState) (c : String)
    (imgs : Option (List String)) (b : Option String) (co : ChatOutcome) :
    (applyEvents st (sendPhase c imgs b co)).selectedFile = none := by
  simp [sendPhase, tryChatEvents_eq, applyEvents, applyEvent]

theorem isLoading_sendPhase (st : ChatState) (c : String)
    (imgs : Option (List String)) (b : Option String) (co : ChatOutcome) :
    (applyEvents st (sendPhase c imgs b co)).isLoading = false := by
  simp [sendPhase, tryChatEvents_eq, applyEvents, applyEvent]

theorem sendPhase_events (c : String) (imgs : Option (List String))
    (b : Option String) (co : ChatOutcome) :
    sendPhase c imgs b co
      = [ Event.appendMessage ⟨Role.user, c, imgs⟩
        , Event.setInput ""
        , Event.setSelectedFile none
        , Event.setLoading true
        , Event.chatRequest (buildRequest c b)
        , Event.appendMessage ⟨Role.assistant, replyText co, none⟩
        , Event.setLoading false ] := by
  simp [sendPhase, tryChatEvents_eq]

theorem appendedMessagesConsAwait (es : List Event) :
    appendedMessages (Event.awaitFileRead :: es) = appendedMessages es := by
  simp [appendedMessages, eventMessage]

theorem requestsConsAwait (es : List Event) :
    requests (Event.awaitFileRead :: es) = requests es := by
  simp [requests, eventRequest]

theorem chatFailureText_replyText (co : ChatOutcome) (t : String)
    (h : chatFailureText co = some t) : replyText co = t := by
  rcases co with r | e
  · rcases r with _ | r
    · simp only [chatFailureText, Option.some.injEq] at h
      subst h
      decide
    · rcases r with ⟨_ | m⟩
      · simp only [chatFailureText, Option.some.injEq] at h
        subst h
        decide
      · simp [chatFailureText] at h
  · simp only [chatFailureText, Option.some.injEq] at h
    subst h
    rfl

theorem chatFailureText_classification (co : ChatOutcome) (t : String)
    (h : chatFailureText co = some t) :
    (isConnectivityFailure co = true → t = connectivityErrorText)
    ∧ (isConnectivityFailure co = false → t = genericErrorText) := by
  rcases co with r | e
  · rcases r with _ | r
    · simp only [chatFailureText, Option.some.injEq] at h
      subst h
      exact ⟨fun hc => by simp [isConnectivityFailure] at hc, fun _ => rfl⟩
    · rcases r with ⟨_ | m⟩
      · simp only [chatFailureText, Option.some.injEq] at h
        subst h
        exact ⟨fun hc => by simp [isConnectivityFailure] at hc, fun _ => rfl⟩
      · simp [chatFailureText] at h
  · simp only [chatFailureText, Option.some.injEq] at h
    subst h
    constructor <;> intro hc <;> simp only [isConnectivityFailure] at hc <;>
      simp [classifyError, hc]

/-! Claim theorems. -/

/-- C1: from the unauthenticated state, a login attempt with the pair
(u, p) authenticates exactly when u equals the configured reference
username and p equals the configured reference password; on any other pair
the whole app state is unchanged. -/
theorem c1_login_succeeds_iff_reference_credentials (cfg : AuthConfig)
    (s : AppState) (u p : String) (h : s.isAuthenticated = false) :
    ((appStep cfg s (AppEvent.login u p)).isAuthenticated = true
      ↔ (u = cfg.username ∧ p = cfg.password))
    ∧ (¬(u = cfg.username ∧ p = cfg.password) →
        appStep cfg s (AppEvent.login u p) = s) := by
  by_cases hv : credentialsValid cfg u p = true
  · have hv2 := hv
    simp only [credentialsValid, Bool.and_eq_true, beq_iff_eq] at hv2
    have hstep : appStep cfg s (AppEvent.login u p)
        = { isAuthenticated := true, chat := some initialChatState } := by
      simp [appStep, h, hv]
    exact ⟨iff_of_true (by rw [hstep]) hv2, fun hc => absurd hv2 hc⟩
  · have hv2 : ¬(u = cfg.username ∧ p = cfg.password) := by
      intro hc
      exact hv (by simp [credentialsValid, Bool.and_eq_true, beq_iff_eq, hc.1, hc.2])
    have hstep : appStep cfg s (AppEvent.login u p) = s := by
      simp [appStep, h, hv]
    exact ⟨iff_of_false (by simp [hstep, h]) hv2, fun _ => hstep⟩

theorem c1_witness :
    (appStep ⟨"admin", "secret"⟩ ⟨false, none⟩
      (AppEvent.login "admin" "secret")).isAuthenticated = true :=
  (c1_login_succeeds_iff_reference_credentials ⟨"admin", "secret"⟩
    ⟨false, none⟩ "admin" "secret" rfl).1.mpr ⟨rfl, rfl⟩

/-- C7: the transcript is append-only: one whole submission, whatever its
outcome (success, inference failure, file-read failure, or the empty-input
no-op), leaves the resulting transcript equal to the previous transcript
followed by the newly appended entries, so no prior entry is mutated,
reordered or deleted, and insertion order is display order. -/
theorem c7_transcript_append_only (st : ChatState) (env : SubmitEnv) :
    (runSubmit st env).messages
      = st.messages ++ appendedMessages (handleSubmit st env) :=
  applyEvents_messages (handleSubmit st env) st

/-- C10: a submission whose input trims to the empty string with no file
selected is a no-op: the handler performs no effect at all, so the state
(transcript, input, loading flag, attachment) is unchanged and no request
is issued. -/
theorem c10_blank_input_noop (st : ChatState) (env : SubmitEnv)
    (h1 : jsTrim st.input = "") (h2 : st.selectedFile = none) :
    handleSubmit st env = [] ∧ runSubmit st env = st := by
  have htrace : handleSubmit st env = [] := by
    simp [handleSubmit, h1, h2]
  exact ⟨htrace, by simp [runSubmit, htrace, applyEvents]⟩

theorem c10_witness :
    handleSubmit ⟨[], " ", false, none⟩
      ⟨ReadOutcome.err, ChatOutcome.ok none⟩ = []
    ∧ runSubmit ⟨[], " ", false, none⟩
        ⟨ReadOutcome.err, ChatOutcome.ok none⟩
      = ⟨[], " ", false, none⟩ :=
  c10_blank_input_noop ⟨[], " ", false, none⟩
    ⟨ReadOutcome.err, ChatOutcome.ok none⟩ (by decide) rfl

/-- C9: the whole system is the two-state machine over the authentication
flag: from the unauthenticated state the flag rises exactly on a login
event carrying the reference credentials, and the chat then mounts with an
empty transcript; from the authenticated state the flag falls exactly on
the logout event, which discards the chat state. -/
theorem c9_two_state_machine (cfg : AuthConfig) (s : AppState)
    (e : AppEvent) :
    (s.isAuthenticated = false →
      ((appStep cfg s e).isAuthenticated = true ↔
        ∃ u p, e = AppEvent.login u p ∧ u = cfg.username ∧ p = cfg.password))
    ∧ (s.isAuthenticated = true →
        ((appStep cfg s e).isAuthenticated = false ↔ e = AppEvent.logout))
    ∧ (s.isAuthenticated = false → (appStep cfg s e).isAuthenticated = true →
        (appStep cfg s e).chat = some initialChatState
        ∧ initialChatState.messages = [])
    ∧ (s.isAuthenticated = true →
        (appStep cfg s AppEvent.logout).chat = none
        ∧ (appStep cfg s AppEvent.logout).isAuthenticated = false) := by
  refine ⟨?_, ?_, ?_, ?_⟩
  · intro h
    cases e with
    | login u p =>
        by_cases hv : credentialsValid cfg u p = true
        · have hv2 := hv
          simp only [credentialsValid, Bool.and_eq_true, beq_iff_eq] at hv2
          have hstep : appStep cfg s (AppEvent.login u p)
              = { isAuthenticated := true, chat := some initialChatState } := by
            simp [appStep, h, hv]
          exact iff_of_true (by rw [hstep]) ⟨u, p, rfl, hv2⟩
        · have hv2 : ¬(u = cfg.username ∧ p = cfg.password) := by
            intro hc
            exact hv
              (by simp [credentialsValid, Bool.and_eq_true, beq_iff_eq,
                    hc.1, hc.2])
          have hstep : appStep cfg s (AppEvent.login u p) = s := by
            simp [appStep, h, hv]
          refine iff_of_false (by simp [hstep, h]) ?_
          rintro ⟨u1, p1, heq, hu, hp⟩
          injection heq with h1 h2
          subst h1
          subst h2
          exact hv2 ⟨hu, hp⟩
    | logout => simp [appStep, h]
    | submit env =>
        cases hc : s.chat <;> simp [appStep, h, hc]
  · intro h
    cases e with
    | login u p => simp [appStep, h]
    | logout => simp [appStep, h]
    | submit env =>
        cases hc : s.chat <;> simp [appStep, h, hc]
  · intro h ha
    cases e with
    | login u p =>
        by_cases hv : credentialsValid cfg u p = true
        · simp [appStep, h, hv, initialChatState]
        · simp [appStep, h, hv] at ha
    | logout => simp [appStep, h] at ha
    | submit env =>
        cases hc : s.chat <;> simp [appStep, h, hc] at ha
  · intro h
    simp [appStep, h]

/-- C2 as frozen is refuted at a whitespace-only input: the input string
consisting of one space is non-empty and no file is selected, yet the
handler appends zero transcript entries rather than two, because the guard
compares the trimmed input against the empty string. -/
theorem c2_counterexample :
    (ChatState.mk [] " " false none).input ≠ ""
    ∧ (ChatState.mk [] " " false none).selectedFile = none
    ∧ appendedMessages
        (handleSubmit (ChatState.mk [] " " false none)
          ⟨ReadOutcome.err, ChatOutcome.ok none⟩) = [] := by
  refine ⟨by decide, rfl, by decide⟩

/-- C2 (amended): for every text-only submission (no file selected) whose
input contains a non-whitespace character (its trim is non-empty), exactly
two entries are appended, in order: first the user message carrying the
input text, then one assistant entry, which is the model reply on a
well-formed response and the classified diagnostic otherwise. -/
theorem c2_text_submission_appends_user_then_assistant (st : ChatState)
    (env : SubmitEnv) (hsel : st.selectedFile = none)
    (hne : jsTrim st.input ≠ "") :
    appendedMessages (handleSubmit st env)
      = [⟨Role.user, st.input, none⟩,
         ⟨Role.assistant, replyText env.chatResult, none⟩] := by
  have h1 : (jsTrim st.input == "") = false := by
    simp [hne]
  have hg : (jsTrim st.input == "" && st.selectedFile.isNone) = false := by
    rw [h1]
    rfl
  simp [handleSubmit, hg, hsel, hne, appendedMessages_sendPhase]

theorem c2_witness :
    appendedMessages
      (handleSubmit ⟨[], "hi", false, none⟩
        ⟨ReadOutcome.err, ChatOutcome.ok (some ⟨some ⟨"yo"⟩⟩)⟩)
      = [⟨Role.user, "hi", none⟩, ⟨Role.assistant, "yo", none⟩] :=
  c2_text_submission_appends_user_then_assistant ⟨[], "hi", false, none⟩
    ⟨ReadOutcome.err, ChatOutcome.ok (some ⟨some ⟨"yo"⟩⟩)⟩ rfl (by decide)

/-- C3: when a file is selected and its read succeeds, an image-typed file
(media type starting with image/) yields a user message whose visible text
is exactly the unmodified input and which carries exactly one base64 image
payload, while a non-image file yields a user message whose text is the
input followed by the delimited hidden-file-content block and which carries
no image payload; in both cases one assistant entry follows. -/
theorem c3_file_submission_payload (st : ChatState) (env : SubmitEnv)
    (f : JsFile) (data : String) (hf : st.selectedFile = some f)
    (hr : env.readResult = ReadOutcome.ok data) :
    (jsStartsWith f.type "image/" = true →
      appendedMessages (handleSubmit st env)
        = [⟨Role.user, st.input, some [splitBase64 data]⟩,
           ⟨Role.assistant, replyText env.chatResult, none⟩])
    ∧ (jsStartsWith f.type "image/" = false →
        appendedMessages (handleSubmit st env)
          = [⟨Role.user, st.input ++ hiddenFileBlock data, none⟩,
             ⟨Role.assistant, replyText env.chatResult, none⟩]) := by
  have hg : (jsTrim st.input == "" && st.selectedFile.isNone) = false := by
    simp [hf]
  constructor <;> intro him <;>
    simp [handleSubmit, hg, hf, hr, him, appendedMessages, eventMessage,
      sendPhase, tryChatEvents_eq]

theorem c3_witness :
    appendedMessages
      (handleSubmit ⟨[], "look", false, some ⟨"p.png", "image/png"⟩⟩
        ⟨ReadOutcome.ok "data:image/png;base64,QUJD",
         ChatOutcome.ok (some ⟨some ⟨"nice"⟩⟩)⟩)
      = [⟨Role.user, "look", some ["QUJD"]⟩,
         ⟨Role.assistant, "nice", none⟩] :=
  (c3_file_submission_payload
    ⟨[], "look", false, some ⟨"p.png", "image/png"⟩⟩
    ⟨ReadOutcome.ok "data:image/png;base64,QUJD",
     ChatOutcome.ok (some ⟨some ⟨"nice"⟩⟩)⟩
    ⟨"p.png", "image/png"⟩ "data:image/png;base64,QUJD" rfl rfl).1 (by decide)

/-- C4: a failed file read aborts the send: the only appended entry is the
single assistant diagnostic (image or file variant), no user message is
appended, no inference request is issued, and the pending attachment is
cleared; moreover, after any submission that was not the empty-input
no-op, the pending attachment ends cleared. -/
theorem c4_read_failure_aborts_and_attachment_cleared (st : ChatState)
    (env : SubmitEnv) :
    (∀ f, st.selectedFile = some f → env.readResult = ReadOutcome.err →
      appendedMessages (handleSubmit st env)
        = [⟨Role.assistant,
            if jsStartsWith f.type "image/" then imageErrorText
            else fileErrorText, none⟩]
      ∧ requests (handleSubmit st env) = []
      ∧ (runSubmit st env).selectedFile = none)
    ∧ (handleSubmit st env ≠ [] → (runSubmit st env).selectedFile = none) := by
  constructor
  · intro f hf hr
    have hg : (jsTrim st.input == "" && st.selectedFile.isNone) = false := by
      simp [hf]
    cases him : jsStartsWith f.type "image/" <;>
      refine ⟨?_, ?_, ?_⟩ <;>
        simp [handleSubmit, hg, hf, hr, him, appendedMessages, eventMessage,
          requests, eventRequest, runSubmit, applyEvents, applyEvent]
  · intro hne
    cases hg : (jsTrim st.input == "" && st.selectedFile.isNone) with
    | true => exact absurd (by simp [handleSubmit, hg]) hne
    | false =>
        cases hsel : st.selectedFile with
        | none =>
            have hne2 : ¬(jsTrim st.input = "") := by
              rw [hsel] at hg
              simpa using hg
            simp [runSubmit, handleSubmit, hg, hsel, hne2,
              selectedFile_sendPhase]
        | some f =>
            cases him : jsStartsWith f.type "image/" <;>
              cases hr : env.readResult <;>
                simp [runSubmit, handleSubmit, hg, hsel, him, hr,
                  applyEvents_cons, applyEvents_nil, applyEvent,
                  selectedFile_sendPhase]

theorem c4_witness :
    appendedMessages
      (handleSubmit ⟨[], "hi", false, some ⟨"a.txt", "text/plain"⟩⟩
        ⟨ReadOutcome.err, ChatOutcome.ok none⟩)
      = [⟨Role.assistant,
          if jsStartsWith "text/plain" "image/" then imageErrorText
          else fileErrorText, none⟩]
    ∧ requests
        (handleSubmit ⟨[], "hi", false, some ⟨"a.txt", "text/plain"⟩⟩
          ⟨ReadOutcome.err, ChatOutcome.ok none⟩) = []
    ∧ (runSubmit ⟨[], "hi", false, some ⟨"a.txt", "text/plain"⟩⟩
        ⟨ReadOutcome.err, ChatOutcome.ok none⟩).selectedFile = none :=
  (c4_read_failure_aborts_and_attachment_cleared
    ⟨[], "hi", false, some ⟨"a.txt", "text/plain"⟩⟩
    ⟨ReadOutcome.err, ChatOutcome.ok none⟩).1
    ⟨"a.txt", "text/plain"⟩ rfl rfl

/-- C5: whenever a submission actually issued an inference request and the
outcome is a failure (a thrown value, a null response, or a response with
no message), the last appended transcript entry is an assistant-role
message carrying the failure text; that text is the connectivity-specific
diagnostic exactly when the thrown value is an Error whose message
mentions Failed to fetch or NetworkError, and the generic diagnostic in
every other failure case. -/
theorem c5_failure_classification (st : ChatState) (env : SubmitEnv)
    (t : String) (hreq : requests (handleSubmit st env) ≠ [])
    (hfail : chatFailureText env.chatResult = some t) :
    (appendedMessages (handleSubmit st env)).getLast?
      = some ⟨Role.assistant, t, none⟩
    ∧ (isConnectivityFailure env.chatResult = true →
        t = connectivityErrorText)
    ∧ (isConnectivityFailure env.chatResult = false →
        t = genericErrorText) := by
  have hrt := chatFailureText_replyText env.chatResult t hfail
  have hlast : (appendedMessages (handleSubmit st env)).getLast?
      = some ⟨Role.assistant, t, none⟩ := by
    cases hg : (jsTrim st.input == "" && st.selectedFile.isNone) with
    | true => exact absurd (by simp [handleSubmit, hg, requests]) hreq
    | false =>
        cases hsel : st.selectedFile with
        | none =>
            have hne2 : ¬(jsTrim st.input = "") := by
              rw [hsel] at hg
              simpa using hg
            simp [handleSubmit, hg, hsel, hne2, appendedMessages_sendPhase,
              hrt]
        | some f =>
            cases him : jsStartsWith f.type "image/" <;>
              cases hre : env.readResult
            case false.err =>
                exact absurd
                  (by simp [handleSubmit, hg, hsel, him, hre, requests,
                        eventRequest]) hreq
            case true.err =>
                exact absurd
                  (by simp [handleSubmit, hg, hsel, him, hre, requests,
                        eventRequest]) hreq
            case false.ok data =>
                simp [handleSubmit, hg, hsel, him, hre,
                  appendedMessagesConsAwait, appendedMessages_sendPhase, hrt]
            case true.ok data =>
                simp [handleSubmit, hg, hsel, him, hre,
                  appendedMessagesConsAwait, appendedMessages_sendPhase, hrt]
  exact ⟨hlast, (chatFailureText_classification env.chatResult t hfail).1,
    (chatFailureText_classification env.chatResult t hfail).2⟩

theorem c5_witness :
    (appendedMessages
      (handleSubmit ⟨[], "hi", false, none⟩
        ⟨ReadOutcome.err,
         ChatOutcome.thrown ⟨true, "TypeError: Failed to fetch"⟩⟩)).getLast?
      = some ⟨Role.assistant, connectivityErrorText, none⟩ :=
  (c5_failure_classification ⟨[], "hi", false, none⟩
    ⟨ReadOutcome.err,
     ChatOutcome.thrown ⟨true, "TypeError: Failed to fetch"⟩⟩
    connectivityErrorText (by decide) (by decide)).1

/-- C8: every inference request a submission issues is single-turn: it
targets the statically configured model identifier and contains exactly one
message, of user role, whose text equals the text of the user message
appended for this submission, with at most one image payload, and none
when no file was selected; at most one request is issued per submission,
and the trace of effects is independent of the prior transcript, so no
history is ever included. -/
theorem c8_single_turn_request (st : ChatState) (env : SubmitEnv) :
    (∀ r, r ∈ requests (handleSubmit st env) →
      r.model = modelName
      ∧ ∃ m, r.messages = [m] ∧ m.role = Role.user
          ∧ (m.images = none ∨ ∃ bs, m.images = some [bs])
          ∧ (st.selectedFile = none → m.images = none)
          ∧ ∃ um, (appendedMessages (handleSubmit st env)).head? = some um
              ∧ um.role = Role.user ∧ m.content = um.content)
    ∧ (requests (handleSubmit st env)).length ≤ 1
    ∧ (∀ ms, handleSubmit { st with messages := ms } env
        = handleSubmit st env) := by
  refine ⟨?_, ?_, fun _ => rfl⟩
  · intro r hr
    cases hg : (jsTrim st.input == "" && st.selectedFile.isNone) with
    | true => simp [handleSubmit, hg, requests] at hr
    | false =>
        cases hsel : st.selectedFile with
        | none =>
            have hne2 : ¬(jsTrim st.input = "") := by
              rw [hsel] at hg
              simpa using hg
            have htrace : handleSubmit st env
                = sendPhase st.input none none env.chatResult := by
              simp [handleSubmit, hg, hsel, hne2]
            rw [htrace] at hr ⊢
            rw [requests_sendPhase] at hr
            simp only [List.mem_singleton] at hr
            subst hr
            refine ⟨rfl, ⟨Role.user, st.input, none⟩, rfl, rfl, Or.inl rfl,
              fun _ => rfl, ⟨Role.user, st.input, none⟩, ?_, rfl, rfl⟩
            rw [appendedMessages_sendPhase]
            rfl
        | some f =>
            cases him : jsStartsWith f.type "image/" with
            | true =>
                cases hre : env.readResult with
                | ok data =>
                    have htrace : handleSubmit st env
                        = Event.awaitFileRead ::
                            sendPhase st.input (some [splitBase64 data])
                              (some (splitBase64 data)) env.chatResult := by
                      simp [handleSubmit, hg, hsel, him, hre]
                    rw [htrace] at hr ⊢
                    rw [requestsConsAwait, requests_sendPhase] at hr
                    simp only [List.mem_singleton] at hr
                    subst hr
                    refine ⟨rfl, ?_⟩
                    cases hb : strTruthy (some (splitBase64 data)) with
                    | true =>
                        refine ⟨⟨Role.user, st.input, some [splitBase64 data]⟩,
                          ?_, rfl, Or.inr ⟨splitBase64 data, rfl⟩,
                          fun hc => by simp [hsel] at hc,
                          ⟨Role.user, st.input, some [splitBase64 data]⟩,
                          ?_, rfl, rfl⟩
                        · simp [buildRequest, hb]
                        · rw [appendedMessagesConsAwait,
                            appendedMessages_sendPhase]
                          rfl
                    | false =>
                        refine ⟨⟨Role.user, st.input, none⟩,
                          ?_, rfl, Or.inl rfl,
                          fun hc => by simp [hsel] at hc,
                          ⟨Role.user, st.input, some [splitBase64 data]⟩,
                          ?_, rfl, rfl⟩
                        · simp [buildRequest, hb]
                        · rw [appendedMessagesConsAwait,
                            appendedMessages_sendPhase]
                          rfl
                | err =>
                    simp [handleSubmit, hg, hsel, him, hre, requests,
                      eventRequest] at hr
            | false =>
                cases hre : env.readResult with
                | ok data =>
                    have htrace : handleSubmit st env
                        = Event.awaitFileRead ::
                            sendPhase (st.input ++ hiddenFileBlock data)
                              none none env.chatResult := by
                      simp [handleSubmit, hg, hsel, him, hre]
                    rw [htrace] at hr ⊢
                    rw [requestsConsAwait, requests_sendPhase] at hr
                    simp only [List.mem_singleton] at hr
                    subst hr
                    refine ⟨rfl,
                      ⟨Role.user, st.input ++ hiddenFileBlock data, none⟩,
                      rfl, rfl, Or.inl rfl,
                      fun hc => by simp [hsel] at hc,
                      ⟨Role.user, st.input ++ hiddenFileBlock data, none⟩,
                      ?_, rfl, rfl⟩
                    rw [appendedMessagesConsAwait, appendedMessages_sendPhase]
                    rfl
                | err =>
                    simp [handleSubmit, hg, hsel, him, hre, requests,
                      eventRequest] at hr
  · cases hg : (jsTrim st.input == "" && st.selectedFile.isNone) with
    | true => simp [handleSubmit, hg, requests]
    | false =>
        cases hsel : st.selectedFile with
        | none =>
            have hne2 : ¬(jsTrim st.input = "") := by
              rw [hsel] at hg
              simpa using hg
            simp [handleSubmit, hg, hsel, hne2, requests_sendPhase]
        | some f =>
            cases him : jsStartsWith f.type "image/" <;>
              cases hre : env.readResult
            case false.err =>
                simp [handleSubmit, hg, hsel, him, hre, requests, eventRequest]
            case true.err =>
                simp [handleSubmit, hg, hsel, him, hre, requests, eventRequest]
            case false.ok data =>
                simp [handleSubmit, hg, hsel, him, hre, requestsConsAwait,
                  requests_sendPhase]
            case true.ok data =>
                simp [handleSubmit, hg, hsel, him, hre, requestsConsAwait,
                  requests_sendPhase]

theorem c8_witness :
    (buildRequest "hi" none).model = modelName
    ∧ ∃ m, (buildRequest "hi" none).messages = [m] ∧ m.role = Role.user
        ∧ (m.images = none ∨ ∃ bs, m.images = some [bs])
        ∧ ((ChatState.mk [] "hi" false none).selectedFile = none →
            m.images = none)
        ∧ ∃ um,
            (appendedMessages
              (handleSubmit (ChatState.mk [] "hi" false none)
                ⟨ReadOutcome.err, ChatOutcome.ok none⟩)).head? = some um
            ∧ um.role = Role.user ∧ m.content = um.content :=
  (c8_single_turn_request ⟨[], "hi", false, none⟩
    ⟨ReadOutcome.err, ChatOutcome.ok none⟩).1 (buildRequest "hi" none)
    (by decide)

/-- C6 as frozen is refuted: in a submission with a non-image file whose
send does reach the inference call, the trace begins with the asynchronous
file-read await, and at that point no loading-flag effect has occurred, so
the indicator (which renders the flag) is absent during the file-read phase
of an outstanding send. -/
theorem c6_counterexample :
    (handleSubmit ⟨[], "hi", false, some ⟨"a.txt", "text/plain"⟩⟩
      ⟨ReadOutcome.ok "stuff",
       ChatOutcome.ok (some ⟨some ⟨"yo"⟩⟩)⟩).head?
      = some Event.awaitFileRead
    ∧ (handleSubmit ⟨[], "hi", false, some ⟨"a.txt", "text/plain"⟩⟩
        ⟨ReadOutcome.ok "stuff",
         ChatOutcome.ok (some ⟨some ⟨"yo"⟩⟩)⟩).any isChatRequestEvent = true
    ∧ loadingIndicatorShown
        (applyEvents ⟨[], "hi", false, some ⟨"a.txt", "text/plain"⟩⟩
          ((handleSubmit ⟨[], "hi", false, some ⟨"a.txt", "text/plain"⟩⟩
            ⟨ReadOutcome.ok "stuff",
             ChatOutcome.ok (some ⟨some ⟨"yo"⟩⟩)⟩).takeWhile
            fun e => !isAwaitFileReadEvent e)) = false := by
  refine ⟨by decide, by decide, by decide⟩

/-- C6 (amended): the loading flag is set only after the file-read phase:
whenever the trace reaches the inference call, the flag is true just
before it; the flag is set and cleared the same number of times, at most
once each, the clearing is the final effect of the trace, and when the
asynchronous file-read await occurs it is the first effect, with the flag
still at its pre-submit value throughout that phase. -/
theorem c6_loading_flag_lifecycle (st : ChatState) (env : SubmitEnv) :
    ((handleSubmit st env).any isChatRequestEvent = true →
      loadingState st.isLoading
        ((handleSubmit st env).takeWhile fun e => !isChatRequestEvent e)
        = true)
    ∧ countSetLoading false (handleSubmit st env)
        = countSetLoading true (handleSubmit st env)
    ∧ countSetLoading true (handleSubmit st env) ≤ 1
    ∧ (countSetLoading true (handleSubmit st env) = 1 →
        (handleSubmit st env).getLast? = some (Event.setLoading false))
    ∧ ((handleSubmit st env).any isAwaitFileReadEvent = true →
        (handleSubmit st env).head? = some Event.awaitFileRead
        ∧ loadingState st.isLoading
            ((handleSubmit st env).takeWhile
              fun e => !isAwaitFileReadEvent e) = st.isLoading) := by
  cases hg : (jsTrim st.input == "" && st.selectedFile.isNone) with
  | true =>
      have htrace : handleSubmit st env = [] := by simp [handleSubmit, hg]
      rw [htrace]
      refine ⟨fun h => ?_, rfl, Nat.zero_le _, fun h => ?_, fun h => ?_⟩ <;>
        simp [countSetLoading] at h
  | false =>
      cases hsel : st.selectedFile with
      | none =>
          have hne2 : ¬(jsTrim st.input = "") := by
            rw [hsel] at hg
            simpa using hg
          have htrace : handleSubmit st env
              = sendPhase st.input none none env.chatResult := by
            simp [handleSubmit, hg, hsel, hne2]
          rw [htrace, sendPhase_events]
          exact ⟨fun _ => rfl, rfl, Nat.le_refl 1, fun _ => rfl,
            fun h => by simp [isAwaitFileReadEvent] at h⟩
      | some f =>
          cases him : jsStartsWith f.type "image/" <;>
            cases hre : env.readResult
          case false.err =>
              have htrace : handleSubmit st env
                  = [ Event.awaitFileRead
                    , Event.appendMessage ⟨Role.assistant, fileErrorText,
                        none⟩
                    , Event.setSelectedFile none ] := by
                simp [handleSubmit, hg, hsel, him, hre]
              rw [htrace]
              refine ⟨fun h => ?_, rfl, Nat.zero_le _, fun h => ?_,
                fun _ => ⟨rfl, rfl⟩⟩
              · simp [isChatRequestEvent] at h
              · simp [countSetLoading, isSetLoadingEvent] at h
          case true.err =>
              have htrace : handleSubmit st env
                  = [ Event.awaitFileRead
                    , Event.appendMessage ⟨Role.assistant, imageErrorText,
                        none⟩
                    , Event.setSelectedFile none ] := by
                simp [handleSubmit, hg, hsel, him, hre]
              rw [htrace]
              refine ⟨fun h => ?_, rfl, Nat.zero_le _, fun h => ?_,
                fun _ => ⟨rfl, rfl⟩⟩
              · simp [isChatRequestEvent] at h
              · simp [countSetLoading, isSetLoadingEvent] at h
          case false.ok data =>
              have htrace : handleSubmit st env
                  = Event.awaitFileRead ::
                      sendPhase (st.input ++ hiddenFileBlock data) none none
                        env.chatResult := by
                simp [handleSubmit, hg, hsel, him, hre]
              rw [htrace, sendPhase_events]
              exact ⟨fun _ => rfl, rfl, Nat.le_refl 1, fun _ => rfl,
                fun _ => ⟨rfl, rfl⟩⟩
          case true.ok data =>
              have htrace : handleSubmit st env
                  = Event.awaitFileRead ::
                      sendPhase st.input (some [splitBase64 data])
                        (some (splitBase64 data)) env.chatResult := by
                simp [handleSubmit, hg, hsel, him, hre]
              rw [htrace, sendPhase_events]
              exact ⟨fun _ => rfl, rfl, Nat.le_refl 1, fun _ => rfl,
                fun _ => ⟨rfl, rfl⟩⟩

theorem c6_witness :
    loadingState false
      ((handleSubmit ⟨[], "hi", false, none⟩
        ⟨ReadOutcome.err, ChatOutcome.ok none⟩).takeWhile
        fun e => !isChatRequestEvent e) = true :=
  (c6_loading_flag_lifecycle ⟨[], "hi", false, none⟩
    ⟨ReadOutcome.err, ChatOutcome.ok none⟩).1 (by decide)

theorem c9_witness :
    (appStep ⟨"admin", "secret"⟩ ⟨true, some initialChatState⟩
      AppEvent.logout).chat = none :=
  ((c9_two_state_machine ⟨"admin", "secret"⟩ ⟨true, some initialChatState⟩
    AppEvent.logout).2.2.2 rfl).1
